import Mathlib

/-!
Verification of the Dashboard repository's core client-side logic.

Each section shallowly embeds one routine of the source:
* `fetchReniecDataAndPopulate` — the three-API identity-lookup fallback chain
  (`SocioTitularRegistrationForm.tsx`);
* `fetchAllData` row processing and `handleUpdateLoteMedido` of the
  partner-documents page;
* `handleConfirmSubmit` DNI-uniqueness gate and the zod schema's
  `superRefine` observation rules of the registration form;
* the `DataTable` controlled/internal state resolution;
* `onSubmit` receipt-data construction of `RecibosPage.tsx`.

JavaScript string truthiness is modelled explicitly: `undefined`/`null` become
`Option.none`, and a string is truthy exactly when it is nonempty.  Network and
database effects are modelled as explicit environment values; console logging
and toast notifications are collected in output traces.
-/

/-- JS `x || ''` on a possibly absent string: absent and `''` both yield `''`. -/
def jsOr (o : Option String) : String := o.getD ""

/-- JS truthiness of a nullable string: present and nonempty. -/
def optTruthy (o : Option String) : Bool :=
  match o with
  | none => false
  | some s => s ≠ ""

/-! ## Identity-lookup fallback chain (`fetchReniecDataAndPopulate`) -/

/-- The eight personal-data form fields the lookup chain reads and writes
(the source's `fieldsToCheck`).  The empty string models an unset field. -/
structure ReniecFields where
  nombres : String
  apellidoPaterno : String
  apellidoMaterno : String
  fechaNacimiento : String
  direccionDNI : String
  regionDNI : String
  provinciaDNI : String
  distritoDNI : String
deriving DecidableEq, Repr

/-- `response.data.data` of the primary API (Consultas Peru). -/
structure PrimaryData where
  name : Option String
  surname : Option String
  date_of_birth : Option String
  address : Option String
  department : Option String
  province : Option String
  district : Option String
deriving DecidableEq, Repr

/-- `res.data.datos.domiciliado` of the secondary API (miapi.cloud). -/
structure SecondaryDomicilio where
  direccion : Option String
  departamento : Option String
  provincia : Option String
  distrito : Option String
deriving DecidableEq, Repr

/-- `res.data.datos` of the secondary API. -/
structure SecondaryData where
  nombres : Option String
  ape_paterno : Option String
  ape_materno : Option String
  domiciliado : Option SecondaryDomicilio
deriving DecidableEq, Repr

/-- Body returned by the tertiary API (ConsultaDatos), upper-case keys. -/
structure TertiaryData where
  dni : Option String
  nombres : Option String
  ap_pat : Option String
  ap_mat : Option String
  fecha_nac : Option String
  direccion : Option String
deriving DecidableEq, Repr

/-- Outcome of the primary `axios.post`: a thrown error, or a response with a
`success` flag and an optional `data` payload. -/
inductive PrimaryResult where
  | thrown : PrimaryResult
  | resp (success : Bool) (data : Option PrimaryData) : PrimaryResult
deriving DecidableEq, Repr

/-- Outcome of the secondary `axios.get`: thrown, or `success` plus `datos`. -/
inductive SecondaryResult where
  | thrown : SecondaryResult
  | resp (success : Bool) (datos : Option SecondaryData) : SecondaryResult
deriving DecidableEq, Repr

/-- Outcome of the tertiary `axios.get` through the CORS proxy. -/
inductive TertiaryResult where
  | thrown : TertiaryResult
  | resp (body : Option TertiaryData) : TertiaryResult
deriving DecidableEq, Repr

/-- Environment of one invocation: which API tokens are configured and what
each HTTP call would yield if made. -/
structure ReniecEnv where
  token1 : Bool
  token2 : Bool
  token3 : Bool
  primary : PrimaryResult
  secondary : SecondaryResult
  tertiary : TertiaryResult
deriving DecidableEq, Repr

/-- Which external API an HTTP request went to. -/
inductive ApiName where
  | primary : ApiName
  | secondary : ApiName
  | tertiary : ApiName
deriving DecidableEq, Repr

/-- Running state of the routine: form fields, the `dataFound` flag, and the
observable effects (HTTP calls made, `console.error` logs, toasts shown). -/
structure ReniecTrace where
  fields : ReniecFields
  dataFound : Bool
  calls : List ApiName
  logs : List String
  toasts : List String
deriving DecidableEq, Repr

/-- The source's `checkMissingFields`: some field of `fieldsToCheck` is falsy. -/
def checkMissingFields (st : ReniecFields) : Bool :=
  st.nombres == "" || st.apellidoPaterno == "" || st.apellidoMaterno == "" ||
  st.fechaNacimiento == "" || st.direccionDNI == "" || st.regionDNI == "" ||
  st.provinciaDNI == "" || st.distritoDNI == ""

/-- The source's `formatDateToISO`: DD/MM/YYYY becomes YYYY-MM-DD, anything
already containing a dash (or not splitting into three parts) is kept. -/
def formatDateToISO (dateStr : Option String) : String :=
  match dateStr with
  | none => ""
  | some s =>
    if s == "" then ""
    else if s.data.contains '-' then s
    else
      match s.splitOn "/" with
      | [day, month, year] => year ++ "-" ++ month ++ "-" ++ day
      | _ => s

/-- Field updates of the primary-API success branch: every field is written
unconditionally, the surname is split on spaces into the two apellidos. -/
def primaryApply (st : ReniecFields) (d : PrimaryData) : ReniecFields :=
  let surnameStr := jsOr d.surname
  let surnames : List String := if surnameStr == "" then [] else surnameStr.splitOn " "
  { st with
    nombres := jsOr d.name
    apellidoPaterno := surnames.getD 0 ""
    apellidoMaterno := surnames.getD 1 ""
    fechaNacimiento := jsOr d.date_of_birth
    direccionDNI := jsOr d.address
    regionDNI := jsOr d.department
    provinciaDNI := jsOr d.province
    distritoDNI := jsOr d.district }

/-- Field updates of the secondary-API success branch: each field is written
only when currently falsy; the birth date is not provided by this API. -/
def secondaryApply (st : ReniecFields) (d : SecondaryData) : ReniecFields :=
  { st with
    nombres := if st.nombres == "" then jsOr d.nombres else st.nombres
    apellidoPaterno := if st.apellidoPaterno == "" then jsOr d.ape_paterno else st.apellidoPaterno
    apellidoMaterno := if st.apellidoMaterno == "" then jsOr d.ape_materno else st.apellidoMaterno
    direccionDNI :=
      if st.direccionDNI == "" then jsOr (d.domiciliado.bind (·.direccion)) else st.direccionDNI
    regionDNI :=
      if st.regionDNI == "" then jsOr (d.domiciliado.bind (·.departamento)) else st.regionDNI
    provinciaDNI :=
      if st.provinciaDNI == "" then jsOr (d.domiciliado.bind (·.provincia)) else st.provinciaDNI
    distritoDNI :=
      if st.distritoDNI == "" then jsOr (d.domiciliado.bind (·.distrito)) else st.distritoDNI }

/-- Field updates of the tertiary-API success branch: guarded writes of the
names, the date (run through `formatDateToISO`) and the address only. -/
def tertiaryApply (st : ReniecFields) (d : TertiaryData) : ReniecFields :=
  { st with
    nombres := if st.nombres == "" then jsOr d.nombres else st.nombres
    apellidoPaterno := if st.apellidoPaterno == "" then jsOr d.ap_pat else st.apellidoPaterno
    apellidoMaterno := if st.apellidoMaterno == "" then jsOr d.ap_mat else st.apellidoMaterno
    fechaNacimiento :=
      if st.fechaNacimiento == "" then formatDateToISO d.fecha_nac else st.fechaNacimiento
    direccionDNI := if st.direccionDNI == "" then jsOr d.direccion else st.direccionDNI }

/-- Attempt 1 (Consultas Peru).  A missing token throws before the request is
made; the error is caught and logged either way.  On `success` with data the
fields are overwritten and `dataFound` is set. -/
def stepPrimary (env : ReniecEnv) (st : ReniecFields) : ReniecTrace :=
  if env.token1 then
    match env.primary with
    | .thrown => ⟨st, false, [.primary], ["Error API Principal"], []⟩
    | .resp success data =>
      match success, data with
      | true, some d =>
        ⟨primaryApply st d, true, [.primary], [], ["Datos encontrados (API Principal)"]⟩
      | _, _ => ⟨st, false, [.primary], [], []⟩
  else
    ⟨st, false, [], ["Error API Principal"], []⟩

/-- Attempt 2 (miapi.cloud): entered only when nothing was found yet or some
target field is still empty; skipped silently when the token is absent.  The
`toast.info` of this branch sits behind `if (!dataFound)` after `dataFound`
was just set, so it never fires. -/
def stepSecondary (env : ReniecEnv) (t : ReniecTrace) : ReniecTrace :=
  if !t.dataFound || checkMissingFields t.fields then
    if env.token2 then
      match env.secondary with
      | .thrown =>
        { t with calls := t.calls ++ [.secondary], logs := t.logs ++ ["Error API Secundaria"] }
      | .resp success datos =>
        match success, datos with
        | true, some d =>
          { t with fields := secondaryApply t.fields d, dataFound := true,
                   calls := t.calls ++ [.secondary] }
        | _, _ => { t with calls := t.calls ++ [.secondary] }
    else t
  else t

/-- Attempt 3 (ConsultaDatos via corsproxy.io): entered only when data is
still missing after attempt 2; skipped when the token is absent.  The body
counts as data when its `DNI` or `NOMBRES` key is truthy. -/
def stepTertiary (env : ReniecEnv) (t : ReniecTrace) : ReniecTrace :=
  if !t.dataFound || checkMissingFields t.fields then
    if env.token3 then
      match env.tertiary with
      | .thrown =>
        { t with calls := t.calls ++ [.tertiary], logs := t.logs ++ ["Error API Terciaria"] }
      | .resp body =>
        match body with
        | some d =>
          if jsOr d.dni != "" || jsOr d.nombres != "" then
            { t with fields := tertiaryApply t.fields d, dataFound := true,
                     calls := t.calls ++ [.tertiary],
                     toasts := t.toasts ++ ["Datos complementados (API Terciaria)"] }
          else { t with calls := t.calls ++ [.tertiary] }
        | none => { t with calls := t.calls ++ [.tertiary] }
    else t
  else t

/-- The whole routine.  Returns the final trace; the routine's boolean return
value is the trace's `dataFound`.  A DNI that is not 8 characters long exits
immediately with no effect. -/
def fetchReniecDataAndPopulate (env : ReniecEnv) (dni : String) (st : ReniecFields) :
    ReniecTrace :=
  if dni.length ≠ 8 then ⟨st, false, [], [], []⟩
  else
    let t1 := stepPrimary env st
    let t2 := stepSecondary env t1
    let t3 := stepTertiary env t2
    if !t3.dataFound then
      { t3 with toasts := t3.toasts ++ ["No se encontraron datos completos en ninguna API."] }
    else t3

/-- Field-wise non-clobbering: between two snapshots, every field that was
already nonempty is unchanged. -/
def overwritesOnlyEmpty (before after : ReniecFields) : Prop :=
  (before.nombres ≠ "" → after.nombres = before.nombres) ∧
  (before.apellidoPaterno ≠ "" → after.apellidoPaterno = before.apellidoPaterno) ∧
  (before.apellidoMaterno ≠ "" → after.apellidoMaterno = before.apellidoMaterno) ∧
  (before.fechaNacimiento ≠ "" → after.fechaNacimiento = before.fechaNacimiento) ∧
  (before.direccionDNI ≠ "" → after.direccionDNI = before.direccionDNI) ∧
  (before.regionDNI ≠ "" → after.regionDNI = before.regionDNI) ∧
  (before.provinciaDNI ≠ "" → after.provinciaDNI = before.provinciaDNI) ∧
  (before.distritoDNI ≠ "" → after.distritoDNI = before.distritoDNI)

instance (before after : ReniecFields) : Decidable (overwritesOnlyEmpty before after) := by
  unfold overwritesOnlyEmpty; infer_instance

lemma stepPrimary_calls (env : ReniecEnv) (st : ReniecFields) (htok : env.token1 = true) :
    (stepPrimary env st).calls = [ApiName.primary] := by
  unfold stepPrimary
  rw [if_pos htok]
  cases env.primary with
  | thrown => rfl
  | resp success data => cases success <;> cases data <;> rfl

lemma stepSecondary_calls (env : ReniecEnv) (t : ReniecTrace) :
    (stepSecondary env t).calls = t.calls ∨
    (stepSecondary env t).calls = t.calls ++ [ApiName.secondary] := by
  unfold stepSecondary
  split
  · split
    · cases env.secondary with
      | thrown => right; rfl
      | resp success datos => cases success <;> cases datos <;> simp
    · left; rfl
  · left; rfl

lemma stepTertiary_calls (env : ReniecEnv) (t : ReniecTrace) :
    (stepTertiary env t).calls = t.calls ∨
    (stepTertiary env t).calls = t.calls ++ [ApiName.tertiary] := by
  unfold stepTertiary
  split
  · split
    · cases env.tertiary with
      | thrown => right; rfl
      | resp body =>
        cases body with
        | none => right; rfl
        | some d =>
          dsimp only
          split
          · right; rfl
          · right; rfl
    · left; rfl
  · left; rfl

lemma stepSecondary_fields (env : ReniecEnv) (t : ReniecTrace) :
    (stepSecondary env t).fields = t.fields ∨
    ∃ d, (stepSecondary env t).fields = secondaryApply t.fields d := by
  unfold stepSecondary
  split
  · split
    · cases env.secondary with
      | thrown => left; rfl
      | resp success datos =>
        cases success <;> cases datos <;> simp
    · left; rfl
  · left; rfl

lemma stepTertiary_fields (env : ReniecEnv) (t : ReniecTrace) :
    (stepTertiary env t).fields = t.fields ∨
    ∃ d, (stepTertiary env t).fields = tertiaryApply t.fields d := by
  unfold stepTertiary
  split
  · split
    · cases env.tertiary with
      | thrown => left; rfl
      | resp body =>
        cases body with
        | none => left; rfl
        | some d =>
          dsimp only
          split
          · right; exact ⟨d, rfl⟩
          · left; rfl
    · left; rfl
  · left; rfl

lemma stepSecondary_skip (env : ReniecEnv) (t : ReniecTrace)
    (h1 : t.dataFound = true) (h2 : checkMissingFields t.fields = false) :
    stepSecondary env t = t := by
  unfold stepSecondary
  simp [h1, h2]

lemma stepTertiary_skip (env : ReniecEnv) (t : ReniecTrace)
    (h1 : t.dataFound = true) (h2 : checkMissingFields t.fields = false) :
    stepTertiary env t = t := by
  unfold stepTertiary
  simp [h1, h2]

lemma overwritesOnlyEmpty_refl (st : ReniecFields) : overwritesOnlyEmpty st st := by
  unfold overwritesOnlyEmpty
  exact ⟨fun _ => rfl, fun _ => rfl, fun _ => rfl, fun _ => rfl,
         fun _ => rfl, fun _ => rfl, fun _ => rfl, fun _ => rfl⟩

lemma secondaryApply_overwritesOnlyEmpty (st : ReniecFields) (d : SecondaryData) :
    overwritesOnlyEmpty st (secondaryApply st d) := by
  unfold overwritesOnlyEmpty secondaryApply
  refine ⟨?_, ?_, ?_, ?_, ?_, ?_, ?_, ?_⟩ <;> intro h <;> simp [h]

lemma tertiaryApply_overwritesOnlyEmpty (st : ReniecFields) (d : TertiaryData) :
    overwritesOnlyEmpty st (tertiaryApply st d) := by
  unfold overwritesOnlyEmpty tertiaryApply
  refine ⟨?_, ?_, ?_, ?_, ?_, ?_, ?_, ?_⟩ <;> intro h <;> simp [h]

lemma fetchReniec_calls (env : ReniecEnv) (dni : String) (st : ReniecFields)
    (h8 : dni.length = 8) :
    (fetchReniecDataAndPopulate env dni st).calls =
    (stepTertiary env (stepSecondary env (stepPrimary env st))).calls := by
  unfold fetchReniecDataAndPopulate
  rw [if_neg (by simp [h8])]
  cases hb : (stepTertiary env (stepSecondary env (stepPrimary env st))).dataFound <;>
    simp [hb]

/-- The ordered-fallback contract of `fetchReniecDataAndPopulate`, for one
invocation: the primary API is hit first, the secondary only when the primary
left no data or some target field empty, the tertiary only when data is still
missing after the secondary, each API at most once, and the secondary and
tertiary passes never overwrite a field that is already filled. -/
def C1Prop (env : ReniecEnv) (dni : String) (st : ReniecFields) : Prop :=
  (fetchReniecDataAndPopulate env dni st).calls.head? = some ApiName.primary ∧
  (ApiName.secondary ∈ (fetchReniecDataAndPopulate env dni st).calls →
    (stepPrimary env st).dataFound = false ∨
    checkMissingFields (stepPrimary env st).fields = true) ∧
  (ApiName.tertiary ∈ (fetchReniecDataAndPopulate env dni st).calls →
    (stepSecondary env (stepPrimary env st)).dataFound = false ∨
    checkMissingFields (stepSecondary env (stepPrimary env st)).fields = true) ∧
  (fetchReniecDataAndPopulate env dni st).calls.count ApiName.primary ≤ 1 ∧
  (fetchReniecDataAndPopulate env dni st).calls.count ApiName.secondary ≤ 1 ∧
  (fetchReniecDataAndPopulate env dni st).calls.count ApiName.tertiary ≤ 1 ∧
  overwritesOnlyEmpty (stepPrimary env st).fields
    (stepSecondary env (stepPrimary env st)).fields ∧
  overwritesOnlyEmpty (stepSecondary env (stepPrimary env st)).fields
    (stepTertiary env (stepSecondary env (stepPrimary env st))).fields

/-- C1: for an 8-digit DNI with the primary API configured, the lookup chain
queries the primary API first, falls back to the secondary and tertiary APIs
only while data is missing, calls each API at most once, and the fallback
passes only fill fields that are still empty. -/
theorem c1_fallback_chain (env : ReniecEnv) (dni : String) (st : ReniecFields)
    (h8 : dni.length = 8) (htok : env.token1 = true) : C1Prop env dni st := by
  have hc := fetchReniec_calls env dni st h8
  have h1 := stepPrimary_calls env st htok
  have h2 := stepSecondary_calls env (stepPrimary env st)
  have h3 := stepTertiary_calls env (stepSecondary env (stepPrimary env st))
  unfold C1Prop
  refine ⟨?_, ?_, ?_, ?_, ?_, ?_, ?_, ?_⟩
  -- primary is queried first
  · rw [hc]
    rcases h3 with h3 | h3 <;> rw [h3] <;> rcases h2 with h2 | h2 <;>
      rw [h2] <;> simp [h1]
  -- secondary only while data missing after the primary
  · intro hmem
    by_cases hdf : (stepPrimary env st).dataFound = true
    · by_cases hmf : checkMissingFields (stepPrimary env st).fields = true
      · right; exact hmf
      · exfalso
        have hskip := stepSecondary_skip env (stepPrimary env st) hdf
          (by simpa using hmf)
        rw [hc, hskip] at hmem
        rcases h3 with h3 | h3 <;> rw [hskip] at h3 <;> rw [h3, h1] at hmem <;>
          simp at hmem
    · left; simpa using hdf
  -- tertiary only while data missing after the secondary
  · intro hmem
    by_cases hdf : (stepSecondary env (stepPrimary env st)).dataFound = true
    · by_cases hmf :
        checkMissingFields (stepSecondary env (stepPrimary env st)).fields = true
      · right; exact hmf
      · exfalso
        have hskip := stepTertiary_skip env (stepSecondary env (stepPrimary env st)) hdf
          (by simpa using hmf)
        rw [hc, hskip] at hmem
        rcases h2 with h2 | h2 <;> rw [h2, h1] at hmem <;> simp at hmem
    · left; simpa using hdf
  -- each API called at most once
  · rw [hc]
    rcases h3 with h3 | h3 <;> rw [h3] <;> rcases h2 with h2 | h2 <;>
      rw [h2] <;> simp [h1]
  · rw [hc]
    rcases h3 with h3 | h3 <;> rw [h3] <;> rcases h2 with h2 | h2 <;>
      rw [h2] <;> simp [h1, List.count_append]
  · rw [hc]
    rcases h3 with h3 | h3 <;> rw [h3] <;> rcases h2 with h2 | h2 <;>
      rw [h2] <;> simp [h1, List.count_append]
  -- the secondary pass fills only empty fields
  · rcases stepSecondary_fields env (stepPrimary env st) with hf | ⟨d, hf⟩
    · rw [hf]; exact overwritesOnlyEmpty_refl _
    · rw [hf]; exact secondaryApply_overwritesOnlyEmpty _ _
  -- the tertiary pass fills only empty fields
  · rcases stepTertiary_fields env (stepSecondary env (stepPrimary env st)) with hf | ⟨d, hf⟩
    · rw [hf]; exact overwritesOnlyEmpty_refl _
    · rw [hf]; exact tertiaryApply_overwritesOnlyEmpty _ _

/-- A concrete invocation environment: primary token set but the request
throws, the other two tokens unset. -/
def c1Env : ReniecEnv :=
  ⟨true, false, false, PrimaryResult.thrown, SecondaryResult.thrown,
   TertiaryResult.resp none⟩

/-- A blank form state. -/
def blankFields : ReniecFields := ⟨"", "", "", "", "", "", "", ""⟩

theorem c1_fallback_chain_witness :
    ("12345678".length = 8 ∧ c1Env.token1 = true) ∧ C1Prop c1Env "12345678" blankFields :=
  ⟨⟨by decide, rfl⟩, c1_fallback_chain c1Env "12345678" blankFields (by decide) rfl⟩

/-! ## Partner-documents page (`fetchAllData` row processing) -/

/-- A `socio_documentos` row as fetched from the database. -/
structure SocioDocumento where
  id : Nat
  tipo_documento : String
  link_documento : Option String
deriving DecidableEq, Repr

/-- A processed document row; `transaction_type` is attached for payment
receipts during processing. -/
structure SocioDocumentoOut where
  id : Nat
  tipo_documento : String
  link_documento : Option String
  transaction_type : Option String
deriving DecidableEq, Repr

/-- An `ingresos` row as selected by `fetchAllData`. -/
structure IngresoRow where
  dni : Option String
  receipt_number : Option String
  transaction_type : Option String
deriving DecidableEq, Repr

/-- A `socio_titulares` row (with nested documents) as selected by
`fetchAllData`. -/
structure SocioRow where
  id : String
  dni : String
  nombres : String
  apellidoPaterno : String
  apellidoMaterno : String
  localidad : Option String
  mz : Option String
  lote : Option String
  is_lote_medido : Option Bool
  socio_documentos : List SocioDocumento
deriving DecidableEq, Repr

/-- Payment information derived from the `ingresos` rows. -/
structure IngresoInfo where
  status : String
  receipt_number : Option String
deriving DecidableEq, Repr

/-- The processed row the page displays. -/
structure SocioConDocumentos where
  id : String
  dni : String
  nombres : String
  apellidoPaterno : String
  apellidoMaterno : String
  localidad : Option String
  mz : Option String
  lote : Option String
  is_lote_medido : Bool
  socio_documentos : List SocioDocumentoOut
  paymentInfo : IngresoInfo
deriving DecidableEq, Repr

def allowedDocumentTypes : List String :=
  ["Planos de ubicación", "Memoria descriptiva", "Ficha", "Contrato", "Comprobante de Pago"]

def validTransactionTypes : List String := ["Venta", "Ingreso", "Recibo de Pago"]

/-- JS `String.prototype.replace` with a plain-string pattern: replaces only
the first occurrence. -/
def jsReplaceFirst (s pat : String) : String :=
  match s.splitOn pat with
  | [] => s
  | a :: rest => if rest.isEmpty then s else a ++ String.intercalate pat rest

/-- `link.split('/')` last segment with `.pdf` stripped (first occurrence). -/
def serieFromLink (link : String) : String :=
  jsReplaceFirst (((link.splitOn "/").getLast?).getD "") ".pdf"

/-- The `receiptTransactionTypeMap`: keyed by receipt number, later `ingresos`
rows overwrite earlier ones, rows with a falsy number or type are skipped. -/
def receiptTransactionType (ingresos : List IngresoRow) (serie : String) : Option String :=
  ((ingresos.filter (fun i =>
      optTruthy i.receipt_number && optTruthy i.transaction_type &&
      jsOr i.receipt_number == serie)).getLast?).bind (·.transaction_type)

/-- `ingresosByDni.get(socio.dni)`: the socio's rows, in fetch order;
rows with a falsy DNI were never inserted into the map. -/
def socioIngresos (ingresos : List IngresoRow) (dni : String) : List IngresoRow :=
  ingresos.filter (fun i => optTruthy i.dni && jsOr i.dni == dni)

/-- The first-match loop deriving `paymentInfo` for one socio. -/
def socioPaymentInfo (ingresos : List IngresoRow) (dni : String) : IngresoInfo :=
  match (socioIngresos ingresos dni).find? (fun i =>
      optTruthy i.receipt_number && optTruthy i.transaction_type &&
      validTransactionTypes.contains (jsOr i.transaction_type)) with
  | some i => ⟨"Pagado", i.receipt_number⟩
  | none => ⟨"No Pagado", none⟩

/-- The document filter of `fetchAllData`: the type must be allowed and the
link truthy; payment receipts additionally need a valid transaction type for
the serial number extracted from the link. -/
def docFilter (rt : String → Option String) (doc : SocioDocumento) : Bool :=
  if !(allowedDocumentTypes.contains doc.tipo_documento) || !(optTruthy doc.link_documento) then
    false
  else if doc.tipo_documento == "Comprobante de Pago" then
    match rt (serieFromLink (jsOr doc.link_documento)) with
    | some t => validTransactionTypes.contains t
    | none => false
  else true

/-- The document map of `fetchAllData`: payment receipts get their transaction
type attached; type and link are never changed. -/
def docMap (rt : String → Option String) (doc : SocioDocumento) : SocioDocumentoOut :=
  if doc.tipo_documento == "Comprobante de Pago" && optTruthy doc.link_documento then
    ⟨doc.id, doc.tipo_documento, doc.link_documento, rt (serieFromLink (jsOr doc.link_documento))⟩
  else
    ⟨doc.id, doc.tipo_documento, doc.link_documento, none⟩

/-- Processing of one socio row: filter and annotate the documents, derive
payment info, and override `is_lote_medido` when a required document
(Planos de ubicación or Memoria descriptiva) is present. -/
def processSocio (ingresos : List IngresoRow) (socio : SocioRow) : SocioConDocumentos :=
  let rt := receiptTransactionType ingresos
  let filtered := (socio.socio_documentos.filter (docFilter rt)).map (docMap rt)
  let hasPlanos := filtered.any
    (fun d => d.tipo_documento == "Planos de ubicación" && optTruthy d.link_documento)
  let hasMemoria := filtered.any
    (fun d => d.tipo_documento == "Memoria descriptiva" && optTruthy d.link_documento)
  let isMeasuredByDocument := hasPlanos || hasMemoria
  let finalIsLoteMedido := isMeasuredByDocument || socio.is_lote_medido.getD false
  { id := socio.id, dni := socio.dni, nombres := socio.nombres,
    apellidoPaterno := socio.apellidoPaterno, apellidoMaterno := socio.apellidoMaterno,
    localidad := socio.localidad, mz := socio.mz, lote := socio.lote,
    is_lote_medido := finalIsLoteMedido,
    socio_documentos := filtered,
    paymentInfo := socioPaymentInfo ingresos socio.dni }

lemma processSocio_docs (ingresos : List IngresoRow) (socio : SocioRow) :
    (processSocio ingresos socio).socio_documentos =
    (socio.socio_documentos.filter (docFilter (receiptTransactionType ingresos))).map
      (docMap (receiptTransactionType ingresos)) := rfl

lemma processSocio_medido (ingresos : List IngresoRow) (socio : SocioRow) :
    (processSocio ingresos socio).is_lote_medido =
    (((processSocio ingresos socio).socio_documentos.any
        (fun d => d.tipo_documento == "Planos de ubicación" && optTruthy d.link_documento) ||
      (processSocio ingresos socio).socio_documentos.any
        (fun d => d.tipo_documento == "Memoria descriptiva" && optTruthy d.link_documento)) ||
     socio.is_lote_medido.getD false) := rfl

lemma docMap_link (rt : String → Option String) (d : SocioDocumento) :
    (docMap rt d).link_documento = d.link_documento := by
  unfold docMap; split <;> rfl

lemma docFilter_true_link (rt : String → Option String) (d : SocioDocumento)
    (h : docFilter rt d = true) : optTruthy d.link_documento = true := by
  cases hb : optTruthy d.link_documento with
  | true => rfl
  | false =>
    exfalso
    unfold docFilter at h
    rw [hb] at h
    simp at h

lemma optTruthy_ne_none (o : Option String) (h : optTruthy o = true) : o ≠ none := by
  cases o with
  | none => simp [optTruthy] at h
  | some s => simp

/-- The displayed `is_lote_medido`: a present required document forces `true`
regardless of the stored flag; otherwise the stored flag (null as false). -/
def C2Prop (ingresos : List IngresoRow) (socio : SocioRow) : Prop :=
  ((∃ d ∈ (processSocio ingresos socio).socio_documentos,
      (d.tipo_documento = "Planos de ubicación" ∨ d.tipo_documento = "Memoria descriptiva") ∧
      d.link_documento ≠ none) →
    (processSocio ingresos socio).is_lote_medido = true) ∧
  ((¬ ∃ d ∈ (processSocio ingresos socio).socio_documentos,
      (d.tipo_documento = "Planos de ubicación" ∨ d.tipo_documento = "Memoria descriptiva") ∧
      d.link_documento ≠ none) →
    (processSocio ingresos socio).is_lote_medido = socio.is_lote_medido.getD false)

/-- C2: document presence overrides the stored flag in the partner-documents
rows; with no required document the stored flag (null as false) is shown. -/
theorem c2_lote_medido_override (ingresos : List IngresoRow) (socio : SocioRow) :
    C2Prop ingresos socio := by
  constructor
  · rintro ⟨d, hd, htipo, _hlink⟩
    rw [processSocio_medido]
    have htruthy : optTruthy d.link_documento = true := by
      rw [processSocio_docs] at hd
      rcases List.mem_map.mp hd with ⟨d0, hd0, rfl⟩
      rw [docMap_link]
      exact docFilter_true_link _ d0 (List.mem_filter.mp hd0).2
    rcases htipo with h | h
    · have hany : (processSocio ingresos socio).socio_documentos.any
          (fun d => d.tipo_documento == "Planos de ubicación" && optTruthy d.link_documento)
          = true :=
        List.any_eq_true.mpr ⟨d, hd, by simp [h, htruthy]⟩
      simp [hany]
    · have hany : (processSocio ingresos socio).socio_documentos.any
          (fun d => d.tipo_documento == "Memoria descriptiva" && optTruthy d.link_documento)
          = true :=
        List.any_eq_true.mpr ⟨d, hd, by simp [h, htruthy]⟩
      simp [hany]
  · intro hnone
    rw [processSocio_medido]
    have hP : (processSocio ingresos socio).socio_documentos.any
        (fun d => d.tipo_documento == "Planos de ubicación" && optTruthy d.link_documento)
        = false := by
      by_contra hx
      rw [Bool.not_eq_false] at hx
      rcases List.any_eq_true.mp hx with ⟨d, hd, hpd⟩
      rw [Bool.and_eq_true, beq_iff_eq] at hpd
      exact hnone ⟨d, hd, Or.inl hpd.1, optTruthy_ne_none _ hpd.2⟩
    have hM : (processSocio ingresos socio).socio_documentos.any
        (fun d => d.tipo_documento == "Memoria descriptiva" && optTruthy d.link_documento)
        = false := by
      by_contra hx
      rw [Bool.not_eq_false] at hx
      rcases List.any_eq_true.mp hx with ⟨d, hd, hpd⟩
      rw [Bool.and_eq_true, beq_iff_eq] at hpd
      exact hnone ⟨d, hd, Or.inr hpd.1, optTruthy_ne_none _ hpd.2⟩
    simp [hP, hM]

/-- A socio whose stored flag is `false` but who has an uploaded plan. -/
def c2Socio : SocioRow :=
  ⟨"socio-1", "12345678", "Ana", "Quispe", "Rojas", some "Lima", some "A", some "1",
   some false, [⟨1, "Planos de ubicación", some "https://x.supabase.co/planos/p1.pdf"⟩]⟩

theorem c2_lote_medido_override_witness :
    (processSocio [] c2Socio).is_lote_medido = true :=
  (c2_lote_medido_override [] c2Socio).1 (by decide)

/-! ## Registration form: values, schema validation, submit confirmation -/

/-- The `situacionEconomica` enum; `none` in the form values models the
undefined default, which the enum schema rejects. -/
inductive EcoSituacion where
  | pobre : EcoSituacion
  | extremoPobre : EcoSituacion
deriving DecidableEq, Repr

/-- The registration form's values (`SocioTitularFormValues`): `Option`
models the optional/nullable fields. -/
structure SocioTitularFormValues where
  dni : String
  nombres : String
  apellidoPaterno : String
  apellidoMaterno : String
  fechaNacimiento : String
  edad : Option Int
  celular : Option String
  situacionEconomica : Option EcoSituacion
  direccionDNI : String
  regionDNI : String
  provinciaDNI : String
  distritoDNI : String
  localidad : String
  isObservado : Bool
  observacion : Option String
  isPaymentObserved : Bool
  paymentObservationDetail : Option String
  regionVivienda : Option String
  provinciaVivienda : Option String
  distritoVivienda : Option String
  direccionVivienda : Option String
  mz : Option String
  lote : Option String
deriving DecidableEq, Repr

/-- JS `String.prototype.trim`: strip leading and trailing whitespace. -/
def jsTrim (s : String) : String :=
  String.mk (((s.data.dropWhile Char.isWhitespace).reverse.dropWhile Char.isWhitespace).reverse)

/-- The `superRefine` emptiness test: `!value || value.trim() === ''`. -/
def obsMissing (o : Option String) : Bool :=
  match o with
  | none => true
  | some s => s == "" || jsTrim s == ""

/-- Length of an optional string (absent counts as 0). -/
def obsLen (o : Option String) : Nat := (jsOr o).length

/-- The dni regex `^\d{8}$`. -/
def isEightDigits (s : String) : Bool := s.length == 8 && s.data.all Char.isDigit

/-- The `/^\d+$/` regex of the celular refinement. -/
def isAllDigits (s : String) : Bool := s.length ≥ 1 && s.data.all Char.isDigit

/-- Issues (as paths) produced by the base checks of `personalDataSchema`,
before the `superRefine` step.  Each zod check that fails contributes one
issue on its field's path; checks are non-fatal, so they accumulate. -/
def personalBaseIssues (v : SocioTitularFormValues) : List String :=
  (if v.dni.length < 8 then ["dni"] else []) ++
  (if v.dni.length > 8 then ["dni"] else []) ++
  (if !(isEightDigits v.dni) then ["dni"] else []) ++
  (if v.nombres.length < 1 then ["nombres"] else []) ++
  (if v.nombres.length > 255 then ["nombres"] else []) ++
  (if v.apellidoPaterno.length < 1 then ["apellidoPaterno"] else []) ++
  (if v.apellidoPaterno.length > 255 then ["apellidoPaterno"] else []) ++
  (if v.apellidoMaterno.length < 1 then ["apellidoMaterno"] else []) ++
  (if v.apellidoMaterno.length > 255 then ["apellidoMaterno"] else []) ++
  (if v.fechaNacimiento.length < 1 then ["fechaNacimiento"] else []) ++
  (match v.edad with
   | some e => if e < 0 then ["edad"] else []
   | none => []) ++
  (match v.celular with
   | some s =>
     (if s.length > 15 then ["celular"] else []) ++
     (if s != "" && !(isAllDigits s) then ["celular"] else [])
   | none => []) ++
  (if v.situacionEconomica.isNone then ["situacionEconomica"] else []) ++
  (if v.direccionDNI.length < 1 then ["direccionDNI"] else []) ++
  (if v.direccionDNI.length > 255 then ["direccionDNI"] else []) ++
  (if v.regionDNI.length < 1 then ["regionDNI"] else []) ++
  (if v.regionDNI.length > 255 then ["regionDNI"] else []) ++
  (if v.provinciaDNI.length < 1 then ["provinciaDNI"] else []) ++
  (if v.provinciaDNI.length > 255 then ["provinciaDNI"] else []) ++
  (if v.distritoDNI.length < 1 then ["distritoDNI"] else []) ++
  (if v.distritoDNI.length > 255 then ["distritoDNI"] else []) ++
  (if v.localidad.length < 1 then ["localidad"] else []) ++
  (if v.localidad.length > 255 then ["localidad"] else []) ++
  (if obsLen v.observacion > 1000 then ["observacion"] else []) ++
  (if obsLen v.paymentObservationDetail > 1000 then ["paymentObservationDetail"] else [])

/-- Issues added by the `superRefine` step.  An invalid enum value aborts the
object parse in zod, in which case refinements do not run; in this typed
embedding the only abort source is an undefined `situacionEconomica`. -/
def superRefineIssues (v : SocioTitularFormValues) : List String :=
  if v.situacionEconomica.isNone then []
  else
    (if v.isObservado && obsMissing v.observacion then ["observacion"] else []) ++
    (if v.isPaymentObserved && obsMissing v.paymentObservationDetail then
      ["paymentObservationDetail"] else [])

/-- All issue paths of `formSchema` (`personalDataSchema` intersected with
`addressDataSchema`; the address fields are all optional and never fail). -/
def formIssues (v : SocioTitularFormValues) : List String :=
  personalBaseIssues v ++ superRefineIssues v

lemma mem_ite_singleton {c : Prop} [Decidable c] {x a : String} :
    x ∈ (if c then [a] else []) ↔ c ∧ x = a := by
  split
  next h => simp [h]
  next h => simp [h]

lemma mem_personalBaseIssues_obs (v : SocioTitularFormValues) :
    "observacion" ∈ personalBaseIssues v ↔ obsLen v.observacion > 1000 := by
  unfold personalBaseIssues
  rcases v.edad with _ | e <;> rcases v.celular with _ | c <;>
    simp [List.mem_append, mem_ite_singleton]

lemma mem_personalBaseIssues_pod (v : SocioTitularFormValues) :
    "paymentObservationDetail" ∈ personalBaseIssues v ↔
    obsLen v.paymentObservationDetail > 1000 := by
  unfold personalBaseIssues
  rcases v.edad with _ | e <;> rcases v.celular with _ | c <;>
    simp [List.mem_append, mem_ite_singleton]

lemma mem_superRefineIssues_obs (v : SocioTitularFormValues)
    (h : v.situacionEconomica.isSome = true) :
    ("observacion" ∈ superRefineIssues v ↔
      (v.isObservado && obsMissing v.observacion) = true) := by
  unfold superRefineIssues
  rw [Option.isSome_iff_ne_none] at h
  simp [h, List.mem_append, mem_ite_singleton]

lemma mem_superRefineIssues_pod (v : SocioTitularFormValues)
    (h : v.situacionEconomica.isSome = true) :
    ("paymentObservationDetail" ∈ superRefineIssues v ↔
      (v.isPaymentObserved && obsMissing v.paymentObservationDetail) = true) := by
  unfold superRefineIssues
  rw [Option.isSome_iff_ne_none] at h
  simp [h, List.mem_append, mem_ite_singleton]

/-- The observation rules of the form schema, per input. -/
def C4Prop (v : SocioTitularFormValues) : Prop :=
  ("observacion" ∈ formIssues v ↔
    v.isObservado = true ∧ obsMissing v.observacion = true) ∧
  ("paymentObservationDetail" ∈ formIssues v ↔
    v.isPaymentObserved = true ∧ obsMissing v.paymentObservationDetail = true) ∧
  (v.isObservado = false → "observacion" ∉ formIssues v) ∧
  (v.isPaymentObserved = false → "paymentObservationDetail" ∉ formIssues v)

/-- C4 (amended): for inputs with a valid economic situation and observation
details within the 1000-character base limit, validation yields an issue on
`observacion` iff the socio is flagged observed with an absent, null or
whitespace-only detail, and symmetrically for `paymentObservationDetail`;
with the flag off, an empty detail passes. -/
theorem c4_observation_validation (v : SocioTitularFormValues)
    (h1 : v.situacionEconomica.isSome = true)
    (h2 : obsLen v.observacion ≤ 1000)
    (h3 : obsLen v.paymentObservationDetail ≤ 1000) : C4Prop v := by
  have hbase1 : "observacion" ∉ personalBaseIssues v := by
    rw [mem_personalBaseIssues_obs]; omega
  have hbase2 : "paymentObservationDetail" ∉ personalBaseIssues v := by
    rw [mem_personalBaseIssues_pod]; omega
  have hiff1 : ("observacion" ∈ formIssues v ↔
      v.isObservado = true ∧ obsMissing v.observacion = true) := by
    unfold formIssues
    rw [List.mem_append]
    simp only [hbase1, false_or]
    rw [mem_superRefineIssues_obs v h1, Bool.and_eq_true]
  have hiff2 : ("paymentObservationDetail" ∈ formIssues v ↔
      v.isPaymentObserved = true ∧ obsMissing v.paymentObservationDetail = true) := by
    unfold formIssues
    rw [List.mem_append]
    simp only [hbase2, false_or]
    rw [mem_superRefineIssues_pod v h1, Bool.and_eq_true]
  refine ⟨hiff1, hiff2, ?_, ?_⟩
  · intro hoff hmem
    rcases hiff1.mp hmem with ⟨h, _⟩
    rw [hoff] at h
    exact Bool.false_ne_true h
  · intro hoff hmem
    rcases hiff2.mp hmem with ⟨h, _⟩
    rw [hoff] at h
    exact Bool.false_ne_true h

/-- Form values that are valid except for an over-long `observacion` while
the observed flag is off. -/
def c4OverlongValues : SocioTitularFormValues :=
  { dni := "12345678", nombres := "Ana", apellidoPaterno := "Quispe",
    apellidoMaterno := "Rojas", fechaNacimiento := "1990-01-01", edad := some 35,
    celular := some "987654321", situacionEconomica := some EcoSituacion.pobre,
    direccionDNI := "Av. Sol 123", regionDNI := "Lima", provinciaDNI := "Lima",
    distritoDNI := "Miraflores", localidad := "Centro",
    isObservado := false, observacion := some (String.mk (List.replicate 1001 'a')),
    isPaymentObserved := false, paymentObservationDetail := some "",
    regionVivienda := some "", provinciaVivienda := some "", distritoVivienda := some "",
    direccionVivienda := some "", mz := some "", lote := some "" }

set_option maxRecDepth 40000 in
/-- Counterexample to C4 as stated: validation emits an issue on
`observacion` (the 1000-character base limit) although the socio is not
flagged observed. -/
theorem c4_counterexample :
    "observacion" ∈ formIssues c4OverlongValues ∧
    ¬(c4OverlongValues.isObservado = true ∧
      obsMissing c4OverlongValues.observacion = true) := by
  constructor
  · decide
  · decide

/-- Form values flagged observed with a whitespace-only detail. -/
def c4FlaggedValues : SocioTitularFormValues :=
  { c4OverlongValues with
    isObservado := true, observacion := some "   ",
    isPaymentObserved := true, paymentObservationDetail := none }

theorem c4_observation_validation_witness :
    (c4FlaggedValues.situacionEconomica.isSome = true ∧
     obsLen c4FlaggedValues.observacion ≤ 1000 ∧
     obsLen c4FlaggedValues.paymentObservationDetail ≤ 1000) ∧
    C4Prop c4FlaggedValues :=
  ⟨⟨by decide, by decide, by decide⟩,
   c4_observation_validation c4FlaggedValues (by decide) (by decide) (by decide)⟩

/-- A row of the `select('id')` DNI-uniqueness query. -/
structure SocioIdRow where
  id : String
deriving DecidableEq, Repr

/-- Backend effects available to `handleConfirmSubmit`: the DNI check result
(`Except` models a query error) and the optional errors of the update and
insert calls. -/
structure ConfirmEnv where
  dniCheck : Except String (List SocioIdRow)
  updateError : Option String
  insertError : Option String
deriving Repr

/-- The object written to `socio_titulares`: the camelCase payment fields are
stripped and re-added under their snake_case column names, and both
observation details are nulled when their flag is off. -/
structure DataToSave where
  dni : String
  nombres : String
  apellidoPaterno : String
  apellidoMaterno : String
  fechaNacimiento : String
  edad : Option Int
  celular : Option String
  situacionEconomica : Option EcoSituacion
  direccionDNI : String
  regionDNI : String
  provinciaDNI : String
  distritoDNI : String
  localidad : String
  isObservado : Bool
  observacion : Option String
  is_payment_observed : Bool
  payment_observation_detail : Option String
  regionVivienda : Option String
  provinciaVivienda : Option String
  distritoVivienda : Option String
  direccionVivienda : Option String
  mz : Option String
  lote : Option String
deriving DecidableEq, Repr

/-- The `dataToSave` construction inside `handleConfirmSubmit`. -/
def buildDataToSave (v : SocioTitularFormValues) : DataToSave :=
  { dni := v.dni, nombres := v.nombres, apellidoPaterno := v.apellidoPaterno,
    apellidoMaterno := v.apellidoMaterno, fechaNacimiento := v.fechaNacimiento,
    edad := v.edad, celular := v.celular, situacionEconomica := v.situacionEconomica,
    direccionDNI := v.direccionDNI, regionDNI := v.regionDNI,
    provinciaDNI := v.provinciaDNI, distritoDNI := v.distritoDNI,
    localidad := v.localidad, isObservado := v.isObservado,
    observacion := if v.isObservado then v.observacion else none,
    is_payment_observed := v.isPaymentObserved,
    payment_observation_detail :=
      if v.isPaymentObserved then v.paymentObservationDetail else none,
    regionVivienda := v.regionVivienda, provinciaVivienda := v.provinciaVivienda,
    distritoVivienda := v.distritoVivienda, direccionVivienda := v.direccionVivienda,
    mz := v.mz, lote := v.lote }

/-- Observable outcome of one `handleConfirmSubmit` run. -/
structure ConfirmOutcome where
  attemptedUpdate : Bool
  attemptedInsert : Bool
  savedData : Option DataToSave
  duplicateToast : Bool
  dniManualError : Bool
  errorToast : Bool
  successToast : Bool
deriving DecidableEq, Repr

/-- `handleConfirmSubmit`: bail out without data; a failed DNI check throws
into the catch (error toast); a duplicate DNI (some row exists and we are
registering anew, or the first row is a different socio than the one being
edited) stops before any write and marks the dni field; otherwise the update
(when editing) or insert (when registering) runs. -/
def handleConfirmSubmit (socioId : Option String)
    (dataToConfirm : Option SocioTitularFormValues) (env : ConfirmEnv) : ConfirmOutcome :=
  match dataToConfirm with
  | none => ⟨false, false, none, false, false, false, false⟩
  | some data =>
    match env.dniCheck with
    | .error _ => ⟨false, false, none, false, false, true, false⟩
    | .ok existingSocios =>
      let isDuplicateDni : Bool :=
        match existingSocios, socioId with
        | [], _ => false
        | _ :: _, none => true
        | e :: _, some sid => e.id != sid
      if isDuplicateDni then ⟨false, false, none, true, true, false, false⟩
      else
        let dataToSave := buildDataToSave data
        match socioId with
        | some _ =>
          match env.updateError with
          | some _ => ⟨true, false, some dataToSave, false, false, true, false⟩
          | none => ⟨true, false, some dataToSave, false, false, false, true⟩
        | none =>
          match env.insertError with
          | some _ => ⟨false, true, some dataToSave, false, false, true, false⟩
          | none => ⟨false, true, some dataToSave, false, false, false, true⟩

/-- The DNI-uniqueness contract of the submit handler. -/
def C3Prop (socioId : Option String) (v : SocioTitularFormValues) (env : ConfirmEnv) : Prop :=
  (∀ rows, socioId = none → env.dniCheck = .ok rows → rows ≠ [] →
    (handleConfirmSubmit socioId (some v) env).attemptedInsert = false ∧
    (handleConfirmSubmit socioId (some v) env).attemptedUpdate = false ∧
    (handleConfirmSubmit socioId (some v) env).duplicateToast = true ∧
    (handleConfirmSubmit socioId (some v) env).dniManualError = true) ∧
  (∀ sid, socioId = some sid → env.dniCheck = .ok [⟨sid⟩] →
    (handleConfirmSubmit socioId (some v) env).attemptedUpdate = true)

/-- C3: on a new registration whose DNI already has a row, the handler
performs no insert and no update, shows the duplicate toast and sets a manual
error on the dni field; on an edit whose matching row is the socio being
edited, submission proceeds to the update. -/
theorem c3_dni_uniqueness (socioId : Option String) (v : SocioTitularFormValues)
    (env : ConfirmEnv) : C3Prop socioId v env := by
  constructor
  · rintro rows rfl hok hne
    rcases rows with _ | ⟨e, rest⟩
    · exact absurd rfl hne
    · simp [handleConfirmSubmit, hok]
  · rintro sid rfl hok
    cases hu : env.updateError <;> simp [handleConfirmSubmit, hok, hu]

/-- A submit environment whose DNI check finds one existing row. -/
def c3DupEnv : ConfirmEnv := ⟨Except.ok [⟨"row-9"⟩], none, none⟩

theorem c3_dni_uniqueness_witness :
    (handleConfirmSubmit none (some c4FlaggedValues) c3DupEnv).attemptedInsert = false ∧
    (handleConfirmSubmit none (some c4FlaggedValues) c3DupEnv).duplicateToast = true := by
  obtain ⟨h1, _, h3, _⟩ :=
    (c3_dni_uniqueness none c4FlaggedValues c3DupEnv).1 [⟨"row-9"⟩] rfl rfl (by simp)
  exact ⟨h1, h3⟩

/-! ## Partner-documents page: `handleUpdateLoteMedido` -/

/-- The required-documents test blocking an unmark (`hasRequiredDocs`). -/
def hasRequiredDocs (s : SocioConDocumentos) : Bool :=
  s.socio_documentos.any (fun d =>
    (d.tipo_documento == "Planos de ubicación" || d.tipo_documento == "Memoria descriptiva") &&
    optTruthy d.link_documento)

/-- The optimistic `setSociosConDocumentos` map: set the socio's flag. -/
def optimisticSet (state : List SocioConDocumentos) (socioId : String) (newValue : Bool) :
    List SocioConDocumentos :=
  state.map (fun s => if s.id == socioId then { s with is_lote_medido := newValue } else s)

/-- `handleUpdateLoteMedido`: non-admins and unknown socios change nothing;
unmarking is blocked while required documents exist; otherwise the local
state is updated optimistically and, if the backend update errors, the
socio's flag is set back to the value captured before the call. -/
def handleUpdateLoteMedido (isAdmin : Bool) (state : List SocioConDocumentos)
    (socioId : String) (newValue : Bool) (updateError : Option String) :
    List SocioConDocumentos :=
  if !isAdmin then state
  else
    match state.find? (fun s => s.id == socioId) with
    | none => state
    | some originalData =>
      if !newValue && hasRequiredDocs originalData then state
      else
        let optimistic := optimisticSet state socioId newValue
        match updateError with
        | none => optimistic
        | some _ =>
          optimistic.map (fun s =>
            if s.id == socioId then { s with is_lote_medido := originalData.is_lote_medido }
            else s)

lemma map_id_of_mem {α : Type} (l : List α) (f : α → α) (h : ∀ a ∈ l, f a = a) :
    l.map f = l := by
  induction l with
  | nil => rfl
  | cons a t ih =>
    rw [List.map_cons, h a (List.mem_cons_self a t),
        ih (fun x hx => h x (List.mem_cons_of_mem a hx))]

lemma find_unique_match (socioId : String) (state : List SocioConDocumentos)
    (orig : SocioConDocumentos)
    (hpair : state.Pairwise (fun a b => a.id ≠ b.id))
    (hfind : state.find? (fun s => s.id == socioId) = some orig) :
    ∀ s ∈ state, s.id = socioId → s = orig := by
  induction state with
  | nil => simp at hfind
  | cons a l ih =>
    rw [List.pairwise_cons] at hpair
    intro s hs hsid
    by_cases ha : a.id = socioId
    · have horig : orig = a := by
        rw [List.find?_cons_of_pos _ (by simpa using ha)] at hfind
        exact (Option.some.inj hfind).symm
      subst horig
      rcases List.mem_cons.mp hs with rfl | hmem
      · rfl
      · exact absurd (ha.trans hsid.symm) (hpair.1 s hmem)
    · have hfind' : l.find? (fun s => s.id == socioId) = some orig := by
        rwa [List.find?_cons_of_neg _ (by simpa using ha)] at hfind
      rcases List.mem_cons.mp hs with rfl | hmem
      · exact absurd hsid ha
      · exact ih hpair.2 hfind' s hmem hsid

lemma revert_restores (state : List SocioConDocumentos) (socioId : String)
    (newValue : Bool) (orig : SocioConDocumentos)
    (hpair : state.Pairwise (fun a b => a.id ≠ b.id))
    (hfind : state.find? (fun s => s.id == socioId) = some orig) :
    (optimisticSet state socioId newValue).map (fun s =>
      if s.id == socioId then { s with is_lote_medido := orig.is_lote_medido } else s)
      = state := by
  unfold optimisticSet
  rw [List.map_map]
  apply map_id_of_mem
  intro s hs
  simp only [Function.comp]
  by_cases hid : s.id = socioId
  · have hseq : s = orig := find_unique_match socioId state orig hpair hfind s hs hid
    have hb : (s.id == socioId) = true := by simpa using hid
    rw [if_pos hb]
    dsimp only
    rw [if_pos hb, ← hseq]
  · have hb : ¬((s.id == socioId) = true) := by simpa using hid
    rw [if_neg hb, if_neg hb]

/-- Optimistic-then-revert behaviour of the flag handler, per input. -/
def C5Prop (state : List SocioConDocumentos) (socioId : String) (newValue : Bool)
    (msg : String) : Prop :=
  (∀ s ∈ optimisticSet state socioId newValue, s.id = socioId →
    s.is_lote_medido = newValue) ∧
  handleUpdateLoteMedido true state socioId newValue (some msg) = state

/-- C5: the handler first sets the socio's flag to the new value in local
state, and when the backend update fails it restores the pre-call value, so
the local state after a failed update equals the pre-call state. -/
theorem c5_optimistic_revert (state : List SocioConDocumentos) (socioId : String)
    (newValue : Bool) (msg : String) (orig : SocioConDocumentos)
    (hpair : state.Pairwise (fun a b => a.id ≠ b.id))
    (hfind : state.find? (fun s => s.id == socioId) = some orig)
    (hblock : ¬(newValue = false ∧ hasRequiredDocs orig = true)) :
    C5Prop state socioId newValue msg := by
  constructor
  · intro s hs hsid
    unfold optimisticSet at hs
    rcases List.mem_map.mp hs with ⟨t, _ht, rfl⟩
    by_cases htid : t.id = socioId
    · simp [htid]
    · rw [if_neg (by simpa using htid)] at hsid ⊢
      exact absurd hsid htid
  · have hcond : (!newValue && hasRequiredDocs orig) = false := by
      cases newValue with
      | false =>
        cases hr : hasRequiredDocs orig with
        | false => rfl
        | true => exact absurd ⟨rfl, hr⟩ hblock
      | true => rfl
    unfold handleUpdateLoteMedido
    rw [hfind]
    dsimp only
    rw [hcond, if_neg Bool.false_ne_true]
    exact revert_restores state socioId newValue orig hpair hfind

/-- A two-socio local state with distinct ids. -/
def c5State : List SocioConDocumentos :=
  [{ id := "s1", dni := "11111111", nombres := "Ana", apellidoPaterno := "Q",
     apellidoMaterno := "R", localidad := some "Lima", mz := some "A", lote := some "1",
     is_lote_medido := false, socio_documentos := [], paymentInfo := ⟨"No Pagado", none⟩ },
   { id := "s2", dni := "22222222", nombres := "Bea", apellidoPaterno := "S",
     apellidoMaterno := "T", localidad := some "Lima", mz := some "B", lote := some "2",
     is_lote_medido := true, socio_documentos := [], paymentInfo := ⟨"No Pagado", none⟩ }]

theorem c5_optimistic_revert_witness : C5Prop c5State "s1" true "network down" :=
  c5_optimistic_revert c5State "s1" true "network down"
    (c5State.get ⟨0, by decide⟩) (by decide) (by decide) (by simp)

/-! ## Partner-documents page: `fetchAllData` error handling -/

/-- A row of the localidades query. -/
structure LocalidadRow where
  localidad : Option String
deriving DecidableEq, Repr

/-- Results of the three parallel queries of `fetchAllData`; `Except` models
a query error. -/
structure FetchAllEnv where
  socios : Except String (List SocioRow)
  localidades : Except String (List LocalidadRow)
  ingresos : Except String (List IngresoRow)
deriving Repr

/-- Observable outcome of one `fetchAllData` run. -/
structure FetchAllOutcome where
  socios : List SocioConDocumentos
  localidades : List String
  errorMsg : Option String
  logs : List String
  toasts : List String
deriving Repr

/-- `new Set(...).sort()` over truthy localidades: dedup keeping first
occurrences, then sort ascending. -/
def uniqueSortedLocalidades (rows : List LocalidadRow) : List String :=
  List.insertionSort (· ≤ ·)
    (((rows.map (·.localidad)).filterMap (fun o => if optTruthy o then o else none)).eraseDups)

/-- `fetchAllData`: on success every socio row is processed; any query error
falls into the catch, which logs, toasts, sets the error banner and empties
the row list.  The routine always settles with an outcome. -/
def fetchAllData (env : FetchAllEnv) : FetchAllOutcome :=
  match env.socios, env.localidades, env.ingresos with
  | .ok sociosData, .ok locData, .ok ingresosData =>
    { socios := sociosData.map (processSocio ingresosData)
      localidades := uniqueSortedLocalidades locData
      errorMsg := none
      logs := []
      toasts := [] }
  | _, _, _ =>
    { socios := []
      localidades := []
      errorMsg := some "Error al cargar los datos. Por favor, revisa la consola para más detalles."
      logs := ["Error fetching data"]
      toasts := ["Error al cargar datos"] }

lemma stepPrimary_calls_shape (env : ReniecEnv) (st : ReniecFields) :
    (stepPrimary env st).calls = [] ∨ (stepPrimary env st).calls = [ApiName.primary] := by
  unfold stepPrimary
  split
  · cases env.primary with
    | thrown => right; rfl
    | resp success data => cases success <;> cases data <;> simp
  · left; rfl

lemma stepSecondary_logs (env : ReniecEnv) (t : ReniecTrace) :
    (stepSecondary env t).logs = t.logs ∨
    (stepSecondary env t).logs = t.logs ++ ["Error API Secundaria"] := by
  unfold stepSecondary
  split
  · split
    · cases env.secondary with
      | thrown => right; rfl
      | resp success datos => cases success <;> cases datos <;> simp
    · left; rfl
  · left; rfl

lemma stepTertiary_logs (env : ReniecEnv) (t : ReniecTrace) :
    (stepTertiary env t).logs = t.logs ∨
    (stepTertiary env t).logs = t.logs ++ ["Error API Terciaria"] := by
  unfold stepTertiary
  split
  · split
    · cases env.tertiary with
      | thrown => right; rfl
      | resp body =>
        cases body with
        | none => left; rfl
        | some d =>
          dsimp only
          split
          · left; rfl
          · left; rfl
    · left; rfl
  · left; rfl

lemma stepSecondary_thrown (env : ReniecEnv) (t : ReniecTrace)
    (hsec : env.secondary = SecondaryResult.thrown) :
    stepSecondary env t = t ∨
    stepSecondary env t =
      { t with calls := t.calls ++ [ApiName.secondary],
               logs := t.logs ++ ["Error API Secundaria"] } := by
  unfold stepSecondary
  split
  · split
    · rw [hsec]
      right
      rfl
    · left; rfl
  · left; rfl

lemma stepTertiary_thrown (env : ReniecEnv) (t : ReniecTrace)
    (hter : env.tertiary = TertiaryResult.thrown) :
    stepTertiary env t = t ∨
    stepTertiary env t =
      { t with calls := t.calls ++ [ApiName.tertiary],
               logs := t.logs ++ ["Error API Terciaria"] } := by
  unfold stepTertiary
  split
  · split
    · rw [hter]
      right
      rfl
    · left; rfl
  · left; rfl

lemma fetchReniec_logs (env : ReniecEnv) (dni : String) (st : ReniecFields)
    (h8 : dni.length = 8) :
    (fetchReniecDataAndPopulate env dni st).logs =
    (stepTertiary env (stepSecondary env (stepPrimary env st))).logs := by
  unfold fetchReniecDataAndPopulate
  rw [if_neg (by simp [h8])]
  cases hb : (stepTertiary env (stepSecondary env (stepPrimary env st))).dataFound <;>
    simp [hb]

lemma fetchReniec_short (env : ReniecEnv) (dni : String) (st : ReniecFields)
    (h8 : dni.length ≠ 8) :
    fetchReniecDataAndPopulate env dni st = ⟨st, false, [], [], []⟩ := by
  unfold fetchReniecDataAndPopulate
  rw [if_pos h8]

/-- Error-handling contract (amended): lookup-API errors are caught and
logged (only logged); a failing backend query in `fetchAllData` is logged,
toasted and surfaced as the page error; both routines always settle with an
ordinary result. -/
def C6Prop (envR : ReniecEnv) (dni : String) (st : ReniecFields)
    (envF : FetchAllEnv) : Prop :=
  (dni.length = 8 → envR.token1 = true → envR.primary = PrimaryResult.thrown →
    "Error API Principal" ∈ (fetchReniecDataAndPopulate envR dni st).logs) ∧
  (ApiName.secondary ∈ (fetchReniecDataAndPopulate envR dni st).calls →
    envR.secondary = SecondaryResult.thrown →
    "Error API Secundaria" ∈ (fetchReniecDataAndPopulate envR dni st).logs) ∧
  (ApiName.tertiary ∈ (fetchReniecDataAndPopulate envR dni st).calls →
    envR.tertiary = TertiaryResult.thrown →
    "Error API Terciaria" ∈ (fetchReniecDataAndPopulate envR dni st).logs) ∧
  ((fetchReniecDataAndPopulate envR dni st).dataFound = true ∨
    (fetchReniecDataAndPopulate envR dni st).dataFound = false) ∧
  (∀ e, (envF.socios = Except.error e ∨ envF.localidades = Except.error e ∨
      envF.ingresos = Except.error e) →
    "Error al cargar datos" ∈ (fetchAllData envF).toasts ∧
    "Error fetching data" ∈ (fetchAllData envF).logs ∧
    (fetchAllData envF).errorMsg.isSome = true)

/-- C6 (amended): every caught error is logged; `fetchAllData` errors are
additionally toasted and set the page error; lookup-API errors produce no
notification of their own; both routines settle normally. -/
theorem c6_errors_logged (envR : ReniecEnv) (dni : String) (st : ReniecFields)
    (envF : FetchAllEnv) : C6Prop envR dni st envF := by
  refine ⟨?_, ?_, ?_, ?_, ?_⟩
  · intro h8 htok hthr
    rw [fetchReniec_logs envR dni st h8]
    have h1 : (stepPrimary envR st).logs = ["Error API Principal"] := by
      unfold stepPrimary
      rw [if_pos htok, hthr]
    rcases stepSecondary_logs envR (stepPrimary envR st) with h2 | h2 <;>
      rcases stepTertiary_logs envR (stepSecondary envR (stepPrimary envR st)) with h3 | h3 <;>
        rw [h3, h2, h1] <;> simp
  · intro hmem hthr
    by_cases h8 : dni.length = 8
    · rcases stepSecondary_thrown envR (stepPrimary envR st) hthr with h2 | h2
      · exfalso
        rw [fetchReniec_calls envR dni st h8] at hmem
        rcases stepTertiary_calls envR (stepSecondary envR (stepPrimary envR st)) with h3 | h3 <;>
          rw [h3, h2] at hmem <;>
          rcases stepPrimary_calls_shape envR st with h1 | h1 <;> rw [h1] at hmem <;>
            simp at hmem
      · rw [fetchReniec_logs envR dni st h8]
        rcases stepTertiary_logs envR (stepSecondary envR (stepPrimary envR st)) with h3 | h3 <;>
          rw [h3, h2] <;> simp
    · rw [fetchReniec_short envR dni st h8] at hmem
      simp at hmem
  · intro hmem hthr
    by_cases h8 : dni.length = 8
    · rcases stepTertiary_thrown envR (stepSecondary envR (stepPrimary envR st)) hthr with h3 | h3
      · exfalso
        rw [fetchReniec_calls envR dni st h8, h3] at hmem
        rcases stepSecondary_calls envR (stepPrimary envR st) with h2 | h2 <;>
          rw [h2] at hmem <;>
          rcases stepPrimary_calls_shape envR st with h1 | h1 <;> rw [h1] at hmem <;>
            simp at hmem
      · rw [fetchReniec_logs envR dni st h8, h3]
        simp
    · rw [fetchReniec_short envR dni st h8] at hmem
      simp at hmem
  · cases (fetchReniecDataAndPopulate envR dni st).dataFound
    · right; rfl
    · left; rfl
  · intro e he
    cases hs : envF.socios <;> cases hl : envF.localidades <;> cases hi : envF.ingresos <;>
      simp_all [fetchAllData]

/-- A fetch environment whose socios query fails. -/
def c6FailEnvF : FetchAllEnv := ⟨Except.error "boom", Except.ok [], Except.ok []⟩

theorem c6_errors_logged_witness :
    "Error al cargar datos" ∈ (fetchAllData c6FailEnvF).toasts ∧
    "Error fetching data" ∈ (fetchAllData c6FailEnvF).logs := by
  obtain ⟨h1, h2, _⟩ :=
    (c6_errors_logged c1Env "12345678" blankFields c6FailEnvF).2.2.2.2 "boom" (Or.inl rfl)
  exact ⟨h1, h2⟩

/-- A run where the primary API throws and the secondary then finds the data:
the error is logged but no toast at all is shown. -/
def c6Env : ReniecEnv :=
  ⟨true, true, false, PrimaryResult.thrown,
   SecondaryResult.resp true (some ⟨some "JUAN", some "PEREZ", some "GOMEZ",
     some ⟨some "AV SOL 1", some "LIMA", some "LIMA", some "LIMA"⟩⟩),
   TertiaryResult.resp none⟩

/-- Counterexample to C6 as stated: this lookup run raises and logs a primary
API error yet emits no user notification whatsoever. -/
theorem c6_counterexample :
    (fetchReniecDataAndPopulate c6Env "12345678" blankFields).logs =
      ["Error API Principal"] ∧
    (fetchReniecDataAndPopulate c6Env "12345678" blankFields).toasts = [] := by
  constructor
  · rfl
  · rfl

/-! ## `DataTable` controlled versus internal state -/

/-- tanstack `PaginationState`. -/
structure PaginationState where
  pageIndex : Nat
  pageSize : Nat
deriving DecidableEq, Repr

/-- A row-selection state: the set of selected row ids. -/
def RowSelectionState : Type := List String

/-- Where a piece of table state (or its setter) lives. -/
inductive StateSource where
  | controlled : StateSource
  | internal : StateSource
deriving DecidableEq, Repr

/-- `useState` initial value of the internal pagination. -/
def internalPaginationInit : PaginationState := ⟨0, 10⟩

/-- `useState` initial value of the internal row selection (`{}`). -/
def internalRowSelectionInit : RowSelectionState := []

/-- The four optional props of `DataTable` that this resolution concerns;
setters are modelled by their functions, presence being what matters. -/
structure DataTableProps where
  pagination : Option PaginationState
  onPaginationChange : Option (PaginationState → PaginationState)
  rowSelection : Option RowSelectionState
  onRowSelectionChange : Option (RowSelectionState → RowSelectionState)

/-- `controlledPagination ?? internalPagination` at first render. -/
def resolvedPagination (p : DataTableProps) : PaginationState :=
  p.pagination.getD internalPaginationInit

/-- `controlledRowSelection ?? internalRowSelection` at first render. -/
def resolvedRowSelection (p : DataTableProps) : RowSelectionState :=
  p.rowSelection.getD internalRowSelectionInit

/-- Provenance of the pagination state handed to the table. -/
def paginationStateSource (p : DataTableProps) : StateSource :=
  if p.pagination.isSome then StateSource.controlled else StateSource.internal

/-- Provenance of the pagination setter handed to the table
(`setControlledPagination ?? setInternalPagination`). -/
def paginationSetterSource (p : DataTableProps) : StateSource :=
  if p.onPaginationChange.isSome then StateSource.controlled else StateSource.internal

/-- Provenance of the row-selection state handed to the table. -/
def rowSelectionStateSource (p : DataTableProps) : StateSource :=
  if p.rowSelection.isSome then StateSource.controlled else StateSource.internal

/-- Provenance of the row-selection setter handed to the table. -/
def rowSelectionSetterSource (p : DataTableProps) : StateSource :=
  if p.onRowSelectionChange.isSome then StateSource.controlled else StateSource.internal

/-- Per-prop resolution behaviour of `DataTable` (amended contract). -/
def C7Prop (p : DataTableProps) : Prop :=
  (∀ st, p.pagination = some st →
    resolvedPagination p = st ∧ paginationStateSource p = StateSource.controlled) ∧
  (p.pagination = none →
    resolvedPagination p = internalPaginationInit ∧
    paginationStateSource p = StateSource.internal) ∧
  (∀ sel, p.rowSelection = some sel →
    resolvedRowSelection p = sel ∧ rowSelectionStateSource p = StateSource.controlled) ∧
  (p.rowSelection = none →
    resolvedRowSelection p = internalRowSelectionInit ∧
    rowSelectionStateSource p = StateSource.internal) ∧
  (paginationSetterSource p =
    (if p.onPaginationChange.isSome then StateSource.controlled else StateSource.internal)) ∧
  (rowSelectionSetterSource p =
    (if p.onRowSelectionChange.isSome then StateSource.controlled else StateSource.internal)) ∧
  internalPaginationInit = ⟨0, 10⟩ ∧ internalRowSelectionInit = []

/-- C7 (amended): each of the four props is resolved independently — a
caller-supplied state or setter is used whenever that prop is present, and
the internal fallback (pageIndex 0, pageSize 10, empty selection) covers
exactly the missing props. -/
theorem c7_state_resolution (p : DataTableProps) : C7Prop p := by
  refine ⟨?_, ?_, ?_, ?_, rfl, rfl, rfl, rfl⟩
  · intro st h
    exact ⟨by rw [resolvedPagination, h]; rfl,
           by rw [paginationStateSource, h]; rfl⟩
  · intro h
    exact ⟨by rw [resolvedPagination, h]; rfl,
           by rw [paginationStateSource, h]; rfl⟩
  · intro sel h
    exact ⟨by rw [resolvedRowSelection, h]; rfl,
           by rw [rowSelectionStateSource, h]; rfl⟩
  · intro h
    exact ⟨by rw [resolvedRowSelection, h]; rfl,
           by rw [rowSelectionStateSource, h]; rfl⟩

/-- Props supplying a pagination state but no pagination setter. -/
def c7MixedProps : DataTableProps :=
  { pagination := some ⟨3, 20⟩, onPaginationChange := none,
    rowSelection := none, onRowSelectionChange := none }

/-- Counterexample to C7 as stated: with a pagination state supplied but no
setter, the table pairs the caller's state with its internal setter — the two
modes are mixed for the pagination concern. -/
theorem c7_counterexample :
    paginationStateSource c7MixedProps = StateSource.controlled ∧
    paginationSetterSource c7MixedProps = StateSource.internal ∧
    paginationStateSource c7MixedProps ≠ paginationSetterSource c7MixedProps := by
  refine ⟨rfl, rfl, ?_⟩
  intro h
  exact StateSource.noConfusion h

theorem c7_state_resolution_witness :
    resolvedPagination c7MixedProps = ⟨3, 20⟩ :=
  ((c7_state_resolution c7MixedProps).1 ⟨3, 20⟩ rfl).1

/-! ## `RecibosPage.onSubmit` receipt data -/

/-- The client record loaded by the DNI search. -/
structure Client where
  id : Option String
  razon_social : String
  numero_documento : String
deriving DecidableEq, Repr

/-- The receipt form's values (`ReciboPagoFormValues`). -/
structure ReciboPagoFormValues where
  dni : String
  client_name : String
  client_id : Option String
  fecha_emision : String
  monto : Rat
  concepto : String
  metodo_pago : String
  numero_operacion : String
  is_payment_observed : Bool
  payment_observation_detail : Option String
deriving DecidableEq, Repr

/-- The record handed to `generateReceiptPdf`. -/
structure ReceiptData where
  correlative : String
  client_full_name : String
  client_dni : String
  fecha_emision : String
  monto : Rat
  concepto : String
  metodo_pago : String
  numero_operacion : String
deriving DecidableEq, Repr

/-- The `receiptData` construction of `onSubmit`: correlative, the loaded
client's name and document, and the five public form fields; the observation
fields are not read. -/
def buildReceiptData (correlative : String) (clientData : Client)
    (values : ReciboPagoFormValues) : ReceiptData :=
  { correlative := correlative,
    client_full_name := clientData.razon_social,
    client_dni := clientData.numero_documento,
    fecha_emision := values.fecha_emision,
    monto := values.monto,
    concepto := values.concepto,
    metodo_pago := values.metodo_pago,
    numero_operacion := values.numero_operacion }

/-- C8: two submissions with the same correlative, client and public form
fields — differing only in `is_payment_observed` and
`payment_observation_detail` — produce identical `receiptData`. -/
theorem c8_receipt_noninterference (correlative : String) (clientData : Client)
    (v1 v2 : ReciboPagoFormValues)
    (hdni : v1.dni = v2.dni) (hname : v1.client_name = v2.client_name)
    (hcid : v1.client_id = v2.client_id)
    (hfe : v1.fecha_emision = v2.fecha_emision) (hm : v1.monto = v2.monto)
    (hc : v1.concepto = v2.concepto) (hmp : v1.metodo_pago = v2.metodo_pago)
    (hno : v1.numero_operacion = v2.numero_operacion) :
    buildReceiptData correlative clientData v1 = buildReceiptData correlative clientData v2 := by
  unfold buildReceiptData
  rw [hfe, hm, hc, hmp, hno]

/-- A submission with the payment-observation flag and detail set. -/
def c8ObservedValues : ReciboPagoFormValues :=
  { dni := "12345678", client_name := "ANA QUISPE", client_id := some "c-1",
    fecha_emision := "2026-10-11", monto := 250, concepto := "Elaboracion de Expediente Tecnico",
    metodo_pago := "Efectivo", numero_operacion := "",
    is_payment_observed := true, payment_observation_detail := some "monto incompleto" }

/-- The same submission with the observation fields cleared. -/
def c8PlainValues : ReciboPagoFormValues :=
  { c8ObservedValues with is_payment_observed := false, payment_observation_detail := some "" }

/-- A loaded client record. -/
def c8Client : Client := ⟨some "c-1", "ANA QUISPE", "12345678"⟩

theorem c8_receipt_noninterference_witness :
    buildReceiptData "R-00042" c8Client c8ObservedValues =
    buildReceiptData "R-00042" c8Client c8PlainValues :=
  c8_receipt_noninterference "R-00042" c8Client c8ObservedValues c8PlainValues
    rfl rfl rfl rfl rfl rfl rfl rfl
